import Mathlib

/-!
Shallow embedding of the EDStS plugin (src/load.py, src/workers/fc_worker.py,
src/permissions.py).

Python dictionaries are modelled as association lists of string keys and
`Value`s; Python truthiness is `Value.isTruthy`.  Network I/O is modelled by
passing the transport's answer (`TransportResult` / `VerifyResponse`) as an
explicit argument, and each submission function returns, besides the value the
Python function returns, the number of transport invocations it performed, the
connection state after the call, and what (payload, permission header) was
sent, so that claims about side effects become statements about these fields.
-/

set_option autoImplicit false

/-- A Python value as far as the plugin's data flow needs: `None`, booleans,
integers and strings.  (`Value.null` stands for Python `None`.) -/
inductive Value where
  | null
  | bool (b : Bool)
  | int (i : Int)
  | str (s : String)
deriving DecidableEq, Repr

/-- Python truthiness of a `Value` (`if v:`). -/
def Value.isTruthy : Value → Bool
  | .null => false
  | .bool b => b
  | .int i => i != 0
  | .str s => s != ""

/-- A Python dict with string keys, as an association list (keys unique in any
dict that Python builds; lookups take the first match). -/
abbrev JsonObj := List (String × Value)

/-- Dict lookup, `d.get(k)` returning `none` when the key is absent. -/
def jget : JsonObj → String → Option Value
  | [], _ => none
  | (k₁, v₁) :: rest, k => if k₁ = k then some v₁ else jget rest k

/-- Dict lookup with Python's `None` default: `d.get(k)` as a `Value`. -/
def jgetD (o : JsonObj) (k : String) : Value :=
  (jget o k).getD Value.null

/-- Dict assignment `d[k] = v`: replaces the value at an existing key in
place, otherwise appends the new pair (Python insertion order). -/
def jset : JsonObj → String → Value → JsonObj
  | [], k, v => [(k, v)]
  | (k₁, v₁) :: rest, k, v =>
      if k₁ = k then (k, v) :: rest else (k₁, v₁) :: jset rest k v

/-- The `connection_state` dict of `EDStSState` (load.py lines 32-35):
an `is_connected` flag and a `last_activity_check` timestamp, initially
`False` and `None`. -/
structure ConnectionState where
  is_connected : Bool
  last_activity_check : Option Int
deriving DecidableEq, Repr

/-- The initial connection state set up in `EDStSState.__init__`. -/
def initialConnectionState : ConnectionState :=
  { is_connected := false, last_activity_check := none }

/-- permissions.py, `get_permissions_header(config)`: reads
`edsts_user_permissions` (here passed as the `Option String` it returns);
if truthy, splits on commas, strips each part, drops empty parts, and joins
them after the `"EDStS"` tag; otherwise returns the bare `"EDStS"`. -/
def get_permissions_header (userPerm : Option String) : String :=
  match userPerm with
  | none => "EDStS"
  | some s =>
      if s = "" then "EDStS"
      else
        "EDStS," ++
          String.intercalate ","
            (((s.splitOn ",").map String.trim).filter (fun p => p ≠ ""))

/-- The `FC_EVENTS` set of fc_worker.py (lines 12-32). -/
def FC_EVENTS : List String :=
  ["CarrierJump", "CarrierBuy", "CarrierStats", "CarrierDockingPermission",
   "CarrierCrewServices", "CarrierFinance", "CarrierTradeOrder",
   "CarrierDepositFuel", "Docked", "Undocked", "MarketBuy", "MarketSell",
   "StoredShips", "ShipyardBuy", "ModuleBuy", "ModuleSell"]

/-- fc_worker.py, `FCWorker.should_handle_event`: `entry.get("event") in
FC_EVENTS`.  A missing or non-string `event` field is never a member. -/
def should_handle_event (entry : JsonObj) : Bool :=
  match jget entry "event" with
  | some (Value.str s) => FC_EVENTS.contains s
  | _ => false

/-- Modelled from the spec: the `IMPORTANT_EVENTS` set referenced by
`should_process_event` in load.py is not defined anywhere in the sources; the
spec describes the filter only as a pure membership test over "a fixed, closed
membership set" of event-type names that should be "reconfigurable (the set is
data, not code)", so the set is taken here as an explicit argument. -/
def should_process_event (importantEvents : List String)
    (event_name : String) (_timestamp : String) : Bool :=
  if !(importantEvents.contains event_name) then false else true

/-- fc_worker.py lines 95-98, the enrichment step of `_handle_event`:
`entry['_shipId'] = state['ShipID']` when `state.get('ShipID')` is truthy,
then likewise for `_systemAddress` / `SystemAddress`. -/
def enrich (entry state : JsonObj) : JsonObj :=
  let e₁ :=
    if (jgetD state "ShipID").isTruthy then
      jset entry "_shipId" (jgetD state "ShipID")
    else entry
  if (jgetD state "SystemAddress").isTruthy then
    jset e₁ "_systemAddress" (jgetD state "SystemAddress")
  else e₁

/-- What the transport does when a POST is attempted: either an HTTP status
code comes back, or the request raises (network error / timeout). -/
inductive TransportResult where
  | status (code : Nat)
  | exn
deriving DecidableEq, Repr

/-- The spec's outcome taxonomy for one submission. -/
inductive SubmitOutcome where
  | Delivered
  | Unauthorized
  | Failed
deriving DecidableEq, Repr

/-- Observable result of one call to `submit_journal_event`: the boolean the
Python function returns, the outcome class of the branch taken, how many times
the transport was invoked, the connection state afterwards, and the
`x-permissions` header sent (`none` when no request was made). -/
structure GeneralSubmitResult where
  success : Bool
  outcome : SubmitOutcome
  transportCalls : Nat
  conn : ConnectionState
  sentPermHeader : Option String
deriving DecidableEq, Repr

/-- load.py lines 67-107, `submit_journal_event`: guard on
`connection_state["is_connected"]`, guard on a truthy API key, then one POST;
401 flips `is_connected` to `False` and returns `False`, any other non-200
status or exception returns `False` leaving the state alone, 200 returns
`True`. -/
def submit_journal_event (conn : ConnectionState) (apiKey : Option String)
    (userPerm : Option String) (t : TransportResult) : GeneralSubmitResult :=
  if conn.is_connected = false then
    ⟨false, .Failed, 0, conn, none⟩
  else
    match apiKey with
    | none => ⟨false, .Failed, 0, conn, none⟩
    | some key =>
        if key = "" then ⟨false, .Failed, 0, conn, none⟩
        else
          let hdr := get_permissions_header userPerm
          match t with
          | .exn => ⟨false, .Failed, 1, conn, some hdr⟩
          | .status code =>
              if code = 401 then
                ⟨false, .Unauthorized, 1,
                 { conn with is_connected := false }, some hdr⟩
              else if code = 200 then
                ⟨true, .Delivered, 1, conn, some hdr⟩
              else
                ⟨false, .Failed, 1, conn, some hdr⟩

/-- Observable result of one call to `FCWorker._handle_event`: outcome class
of the branch taken, transport invocation count, connection state afterwards,
and the enriched payload and `x-permissions` header sent (`none` when no
request was made).  The Python method returns nothing. -/
structure FCSubmitResult where
  outcome : SubmitOutcome
  transportCalls : Nat
  conn : ConnectionState
  sentPayload : Option JsonObj
  sentPermHeader : Option String
deriving DecidableEq, Repr

/-- fc_worker.py lines 87-120, `FCWorker._handle_event`: returns early when
the API key is not truthy, otherwise enriches the entry and POSTs it with the
fixed header `"EDStS"`; a 401 or other non-200 status is only logged, the
connection state is never touched and is never consulted. -/
def fc_handle_event (conn : ConnectionState) (apiKey : Option String)
    (entry state : JsonObj) (t : TransportResult) : FCSubmitResult :=
  match apiKey with
  | none => ⟨.Failed, 0, conn, none, none⟩
  | some key =>
      if key = "" then ⟨.Failed, 0, conn, none, none⟩
      else
        let payload := enrich entry state
        match t with
        | .exn => ⟨.Failed, 1, conn, some payload, some "EDStS"⟩
        | .status code =>
            if code = 401 then
              ⟨.Unauthorized, 1, conn, some payload, some "EDStS"⟩
            else if code = 200 then
              ⟨.Delivered, 1, conn, some payload, some "EDStS"⟩
            else
              ⟨.Failed, 1, conn, some payload, some "EDStS"⟩

/-- What the verification GET produces: an exception (network error, timeout,
or a body that `response.json()` cannot parse) or a status code with a parsed
JSON body. -/
inductive VerifyResponse where
  | exn
  | json (status : Nat) (body : JsonObj)
deriving DecidableEq, Repr

/-- Python `str.lower()` restricted to the character-wise lowering the plugin
needs (the `valid` strings compared against `"true"` are ASCII). -/
def pyLower (s : String) : String :=
  ⟨s.data.map Char.toLower⟩

/-- load.py lines 127-129: a string `valid` value is lowered and compared with
`"true"`; any other value is kept as is. -/
def normalizeValid : Value → Value
  | .str s => .bool (pyLower s == "true")
  | v => v

/-- load.py lines 121-136, `verify_api_key`: one GET, then
`result.get("valid", False)` normalized per `normalizeValid`; the truthiness
of that value is stored into `is_connected` and returned.  Any exception
stores and returns `False`.  The HTTP status code is never examined, and
`last_activity_check` is never written. -/
def verify_api_key (resp : VerifyResponse) (conn : ConnectionState) :
    Bool × ConnectionState :=
  match resp with
  | .exn => (false, { conn with is_connected := false })
  | .json _ body =>
      let isValid := normalizeValid ((jget body "valid").getD (Value.bool false))
      (isValid.isTruthy, { conn with is_connected := isValid.isTruthy })

/-- The mutable plugin state of load.py (`EDStSState` plus the embedded
`FCWorker`): the shared connection state, the two dispatch queues (a queue
element `none` is the `None` shutdown sentinel), the two shutdown flags, and
whether a verification `Timer` is currently armed (`schedule_verification`
keeps at most one pending timer, so a flag suffices). -/
structure EDStSState where
  conn : ConnectionState
  event_queue : List (Option JsonObj)
  fc_queue : List (Option (JsonObj × JsonObj))
  shutting_down : Bool
  fc_shutting_down : Bool
  verification_timer_armed : Bool
deriving DecidableEq, Repr

/-- The state built by `EDStSState.__init__` and `FCWorker.__init__`. -/
def initialEDStSState : EDStSState :=
  { conn := initialConnectionState, event_queue := [], fc_queue := [],
    shutting_down := false, fc_shutting_down := false,
    verification_timer_armed := false }

/-- fc_worker.py lines 66-71, `FCWorker.process_event`: enqueue
`(entry, state)` when `should_handle_event` accepts it, otherwise do
nothing. -/
def fc_process_event (q : List (Option (JsonObj × JsonObj)))
    (entry state : JsonObj) : List (Option (JsonObj × JsonObj)) :=
  if should_handle_event entry then q ++ [some (entry, state)] else q

/-- load.py lines 273-290, `journal_entry`: return immediately when
`is_connected` is falsy, otherwise delegate the entry to
`FCWorker.process_event`.  Nothing is ever put on `this.event_queue` here. -/
def journal_entry (st : EDStSState) (entry state : JsonObj) : EDStSState :=
  if st.conn.is_connected = false then st
  else { st with fc_queue := fc_process_event st.fc_queue entry state }

/-- load.py lines 150-155, `schedule_verification`: cancel any pending
verification timer, then arm a fresh one. -/
def schedule_verification (st : EDStSState) : EDStSState :=
  { st with verification_timer_armed := true }

/-- load.py lines 172-178, `plugin_stop`: set `shutting_down`, put the `None`
sentinel on the general queue, join the worker, then `FCWorker.stop` (which
sets its flag and puts the sentinel on the FC queue).  The verification timer
is not touched. -/
def plugin_stop (st : EDStSState) : EDStSState :=
  { st with shutting_down := true,
            event_queue := st.event_queue ++ [none],
            fc_shutting_down := true,
            fc_queue := st.fc_queue ++ [none] }

/-- One observed delivery attempt in a worker-loop trace: the event attempted,
the outcome class, and how long the loop sleeps before the next fetch. -/
structure Attempt where
  event : JsonObj
  outcome : SubmitOutcome
  sleepAfter : Nat
deriving DecidableEq, Repr

/-- load.py lines 51-65, the general `worker` loop, run over a queue whose
entries carry the transport's answer for their attempt: a `none` sentinel
stops the loop; a real entry is submitted once, and the loop sleeps 5 units
when `submit_journal_event` returned `False`, none when it returned `True`.
Nothing is ever requeued. -/
def worker_run (conn : ConnectionState) (apiKey userPerm : Option String) :
    List (Option (JsonObj × TransportResult)) → List Attempt
  | [] => []
  | none :: _ => []
  | some (ev, t) :: rest =>
      let r := submit_journal_event conn apiKey userPerm t
      { event := ev, outcome := r.outcome,
        sleepAfter := if r.success then 0 else 5 } ::
        worker_run r.conn apiKey userPerm rest

/-- fc_worker.py lines 73-85, `FCWorker._worker_loop`, run over a queue whose
entries carry the transport's answer: a `none` sentinel stops the loop; a real
entry goes through `_handle_event` once and the loop immediately fetches the
next item — there is no sleep on any outcome, and nothing is requeued. -/
def fc_worker_run (conn : ConnectionState) (apiKey : Option String) :
    List (Option ((JsonObj × JsonObj) × TransportResult)) → List Attempt
  | [] => []
  | none :: _ => []
  | some ((entry, state), t) :: rest =>
      let r := fc_handle_event conn apiKey entry state t
      { event := entry, outcome := r.outcome, sleepAfter := 0 } ::
        fc_worker_run r.conn apiKey rest

/-- The events of the queue entries a worker loop actually processes: the
entries before the first `none` sentinel (or the whole queue), in order. -/
def processedEvents : List (Option (JsonObj × TransportResult)) → List JsonObj
  | [] => []
  | none :: _ => []
  | some (ev, _) :: rest => ev :: processedEvents rest

/-- The entry events of the FC queue entries the FC worker loop actually
processes: the entries before the first `none` sentinel, in order. -/
def fcProcessedEvents :
    List (Option ((JsonObj × JsonObj) × TransportResult)) → List JsonObj
  | [] => []
  | none :: _ => []
  | some ((entry, _), _) :: rest => entry :: fcProcessedEvents rest

/-- One operation that can touch the shared connection state after a
submission: a general submission, an FC submission, or a verification. -/
inductive Op where
  | generalSubmit (apiKey userPerm : Option String) (t : TransportResult)
  | fcSubmit (apiKey : Option String) (entry state : JsonObj) (t : TransportResult)
  | verifyOp (resp : VerifyResponse)
deriving Repr

/-- The effect of one `Op` on the shared connection state. -/
def applyOp (conn : ConnectionState) : Op → ConnectionState
  | .generalSubmit k u t => (submit_journal_event conn k u t).conn
  | .fcSubmit k e s t => (fc_handle_event conn k e s t).conn
  | .verifyOp r => (verify_api_key r conn).2

/-- The connection state after a sequence of operations. -/
def runOps (conn : ConnectionState) (ops : List Op) : ConnectionState :=
  ops.foldl applyOp conn

/-- Whether an operation is a verification that reports the key valid (the
boolean `verify_api_key` computes does not depend on the prior state). -/
def verifySucceeds : Op → Bool
  | .verifyOp r => (verify_api_key r initialConnectionState).1
  | _ => false

/-! Helper lemmas about the dictionary model. -/

theorem jget_jset_self (o : JsonObj) (k : String) (v : Value) :
    jget (jset o k v) k = some v := by
  induction o with
  | nil => simp [jget, jset]
  | cons p rest ih =>
      obtain ⟨k₁, v₁⟩ := p
      by_cases h : k₁ = k
      · simp [jset, h, jget]
      · simp [jset, h, jget, ih]

theorem jget_jset_ne (o : JsonObj) (k₁ k₂ : String) (v : Value) (h : k₁ ≠ k₂) :
    jget (jset o k₁ v) k₂ = jget o k₂ := by
  induction o with
  | nil => simp [jget, jset, h]
  | cons p rest ih =>
      obtain ⟨k₃, v₃⟩ := p
      by_cases h₂ : k₃ = k₁
      · simp [jset, h₂, jget, h]
      · have h₄ : k₂ ≠ k₁ := Ne.symm h
        by_cases h₃ : k₃ = k₂
        · simp [jset, h₂, jget, h₃, h₄]
        · simp [jset, h₂, jget, h₃, ih]

/-! Helper lemmas about the connection state. -/

theorem verify_result_independent (r : VerifyResponse) (conn : ConnectionState) :
    (verify_api_key r conn).1 = (verify_api_key r initialConnectionState).1 := by
  cases r <;> rfl

theorem verify_sets_is_connected (r : VerifyResponse) (conn : ConnectionState) :
    (verify_api_key r conn).2.is_connected = (verify_api_key r conn).1 := by
  cases r <;> rfl

theorem fc_handle_event_conn (conn : ConnectionState) (apiKey : Option String)
    (entry state : JsonObj) (t : TransportResult) :
    (fc_handle_event conn apiKey entry state t).conn = conn := by
  cases apiKey with
  | none => rfl
  | some key =>
      by_cases hk : key = ""
      · simp [fc_handle_event, hk]
      · cases t with
        | exn => simp [fc_handle_event, hk]
        | status code =>
            by_cases h4 : code = 401
            · simp [fc_handle_event, hk, h4]
            · by_cases h2 : code = 200 <;> simp [fc_handle_event, hk, h4, h2]

theorem submit_disconnected (conn : ConnectionState) (apiKey userPerm : Option String)
    (t : TransportResult) (hc : conn.is_connected = false) :
    submit_journal_event conn apiKey userPerm t =
      ⟨false, .Failed, 0, conn, none⟩ := by
  simp [submit_journal_event, hc]

theorem applyOp_stays_disconnected (conn : ConnectionState) (op : Op)
    (hc : conn.is_connected = false) (hop : verifySucceeds op = false) :
    (applyOp conn op).is_connected = false := by
  cases op with
  | generalSubmit k u t =>
      simp [applyOp, submit_disconnected conn k u t hc, hc]
  | fcSubmit k e s t =>
      simp [applyOp, fc_handle_event_conn, hc]
  | verifyOp r =>
      simp only [applyOp]
      rw [verify_sets_is_connected, verify_result_independent]
      simpa [verifySucceeds] using hop

theorem runOps_stays_disconnected (conn : ConnectionState) (ops : List Op)
    (hc : conn.is_connected = false)
    (hops : ∀ op ∈ ops, verifySucceeds op = false) :
    (runOps conn ops).is_connected = false := by
  induction ops generalizing conn with
  | nil => exact hc
  | cons op rest ih =>
      exact ih (applyOp conn op)
        (applyOp_stays_disconnected conn op hc (hops op (by simp)))
        (fun o ho => hops o (by simp [ho]))

/-! Helper lemmas about the worker loops. -/

theorem submit_success_eq (conn : ConnectionState) (apiKey userPerm : Option String)
    (t : TransportResult) :
    (submit_journal_event conn apiKey userPerm t).success =
      decide ((submit_journal_event conn apiKey userPerm t).outcome =
        SubmitOutcome.Delivered) := by
  by_cases hc : conn.is_connected = false
  · simp [submit_journal_event, hc]
  · cases apiKey with
    | none => simp [submit_journal_event, hc]
    | some key =>
        by_cases hk : key = ""
        · simp [submit_journal_event, hc, hk]
        · cases t with
          | exn => simp [submit_journal_event, hc, hk]
          | status code =>
              by_cases h4 : code = 401
              · simp [submit_journal_event, hc, hk, h4]
              · by_cases h2 : code = 200 <;>
                  simp [submit_journal_event, hc, hk, h4, h2]

theorem worker_run_events (apiKey userPerm : Option String) :
    ∀ (q : List (Option (JsonObj × TransportResult))) (conn : ConnectionState),
      (worker_run conn apiKey userPerm q).map Attempt.event = processedEvents q
  | [], _ => rfl
  | none :: _, _ => rfl
  | some (ev, t) :: rest, conn => by
      simp [worker_run, processedEvents, worker_run_events apiKey userPerm rest]

theorem worker_run_sleeps (apiKey userPerm : Option String) :
    ∀ (q : List (Option (JsonObj × TransportResult))) (conn : ConnectionState)
      (a : Attempt), a ∈ worker_run conn apiKey userPerm q →
      a.sleepAfter = if a.outcome = SubmitOutcome.Delivered then 0 else 5
  | [], _, a, ha => absurd ha (List.not_mem_nil a)
  | none :: _, _, a, ha => absurd ha (List.not_mem_nil a)
  | some (ev, t) :: rest, conn, a, ha => by
      rw [worker_run] at ha
      rcases List.mem_cons.mp ha with h | h
      · subst h
        have hs := submit_success_eq conn apiKey userPerm t
        by_cases hd : (submit_journal_event conn apiKey userPerm t).outcome =
            SubmitOutcome.Delivered <;> simp [hs, hd]
      · exact worker_run_sleeps apiKey userPerm rest _ a h

theorem fc_worker_run_events (apiKey : Option String) :
    ∀ (fq : List (Option ((JsonObj × JsonObj) × TransportResult)))
      (conn : ConnectionState),
      (fc_worker_run conn apiKey fq).map Attempt.event = fcProcessedEvents fq
  | [], _ => rfl
  | none :: _, _ => rfl
  | some ((entry, state), t) :: rest, conn => by
      simp [fc_worker_run, fcProcessedEvents, fc_worker_run_events apiKey rest]

theorem fc_worker_run_sleeps (apiKey : Option String) :
    ∀ (fq : List (Option ((JsonObj × JsonObj) × TransportResult)))
      (conn : ConnectionState) (a : Attempt),
      a ∈ fc_worker_run conn apiKey fq → a.sleepAfter = 0
  | [], _, a, ha => absurd ha (List.not_mem_nil a)
  | none :: _, _, a, ha => absurd ha (List.not_mem_nil a)
  | some ((entry, state), t) :: rest, conn, a, ha => by
      rw [fc_worker_run] at ha
      rcases List.mem_cons.mp ha with h | h
      · subst h; rfl
      · exact fc_worker_run_sleeps apiKey rest _ a h

/-! Claim C1. -/

/-- Claim C1 is false as stated: it asserts the guard for every submission
profile, but the fleet-carrier profile (`FCWorker._handle_event`) never
consults ConnectionState.  Here the state is "disconnected" and a non-empty
credential is present, yet the fleet-carrier submission performs one transport
call and the event is delivered instead of returning Failed with zero
calls. -/
theorem c1_counterexample :
    initialConnectionState.is_connected = false ∧
    (fc_handle_event initialConnectionState (some "key") [] []
        (TransportResult.status 200)).outcome = SubmitOutcome.Delivered ∧
    (fc_handle_event initialConnectionState (some "key") [] []
        (TransportResult.status 200)).transportCalls = 1 := by
  refine ⟨rfl, ?_, ?_⟩ <;> rfl

/-- Claim C1 as amended: the general submission profile
(`submit_journal_event`) short-circuits to Failed with zero transport calls
whenever ConnectionState is "disconnected" or no non-empty credential is
obtainable; the fleet-carrier profile (`FCWorker._handle_event`)
short-circuits to Failed with zero transport calls only on the
missing-credential guard — it does not check ConnectionState. -/
theorem c1_amended_guard (conn : ConnectionState) (apiKey userPerm : Option String)
    (t : TransportResult) (entry state : JsonObj)
    (h : conn.is_connected = false ∨ apiKey = none ∨ apiKey = some "") :
    ((submit_journal_event conn apiKey userPerm t).outcome = SubmitOutcome.Failed ∧
     (submit_journal_event conn apiKey userPerm t).transportCalls = 0) ∧
    ((apiKey = none ∨ apiKey = some "") →
      (fc_handle_event conn apiKey entry state t).outcome = SubmitOutcome.Failed ∧
      (fc_handle_event conn apiKey entry state t).transportCalls = 0) := by
  constructor
  · rcases h with hc | hk | hk
    · simp [submit_journal_event, hc]
    · subst hk
      unfold submit_journal_event
      split <;> simp
    · subst hk
      unfold submit_journal_event
      split <;> simp
  · rintro (hk | hk) <;> subst hk <;> simp [fc_handle_event]

/-- Witness for `c1_amended_guard` at a concrete disconnected state. -/
theorem c1_amended_guard_witness :
    initialConnectionState.is_connected = false ∧
    (submit_journal_event initialConnectionState (some "key") none
        (TransportResult.status 200)).outcome = SubmitOutcome.Failed ∧
    (submit_journal_event initialConnectionState (some "key") none
        (TransportResult.status 200)).transportCalls = 0 :=
  ⟨rfl,
   (c1_amended_guard initialConnectionState (some "key") none
      (TransportResult.status 200) [] [] (Or.inl rfl)).1.1,
   (c1_amended_guard initialConnectionState (some "key") none
      (TransportResult.status 200) [] [] (Or.inl rfl)).1.2⟩

/-! Claim C2. -/

/-- Claim C2 is false as stated: the merge does overwrite same-named fields
already present in the raw event.  A raw event whose `_shipId` field is `1` is
enriched from auxiliary state with `ShipID = 2`, and the enriched payload's
`_shipId` is `2`, not the original `1`. -/
theorem c2_counterexample :
    jget [("_shipId", Value.int 1)] "_shipId" = some (Value.int 1) ∧
    jget (enrich [("_shipId", Value.int 1)] [("ShipID", Value.int 2)]) "_shipId" =
      some (Value.int 2) ∧
    Value.int 2 ≠ Value.int 1 := by
  refine ⟨rfl, rfl, by decide⟩

/-- Claim C2 as amended: when the auxiliary state carries truthy `ShipID` and
`SystemAddress` values, enrichment sets `_shipId` and `_systemAddress` to
exactly those values — unconditionally, overwriting any same-named field
already present in the raw event — and every other field of the raw event
keeps its original value. -/
theorem c2_amended_enrichment (entry state : JsonObj)
    (h1 : (jgetD state "ShipID").isTruthy = true)
    (h2 : (jgetD state "SystemAddress").isTruthy = true) :
    jget (enrich entry state) "_shipId" = some (jgetD state "ShipID") ∧
    jget (enrich entry state) "_systemAddress" = some (jgetD state "SystemAddress") ∧
    (∀ k, k ≠ "_shipId" → k ≠ "_systemAddress" →
      jget (enrich entry state) k = jget entry k) := by
  have henrich : enrich entry state =
      jset (jset entry "_shipId" (jgetD state "ShipID")) "_systemAddress"
        (jgetD state "SystemAddress") := by
    simp [enrich, h1, h2]
  refine ⟨?_, ?_, ?_⟩
  · rw [henrich, jget_jset_ne _ _ _ _ (by decide), jget_jset_self]
  · rw [henrich, jget_jset_self]
  · intro k hk1 hk2
    rw [henrich, jget_jset_ne _ _ _ _ (Ne.symm hk2),
      jget_jset_ne _ _ _ _ (Ne.symm hk1)]

/-- Witness for `c2_amended_enrichment` at concrete auxiliary state. -/
theorem c2_amended_enrichment_witness :
    (jgetD [("ShipID", Value.int 2), ("SystemAddress", Value.int 3)] "ShipID").isTruthy = true ∧
    jget (enrich [] [("ShipID", Value.int 2), ("SystemAddress", Value.int 3)]) "_shipId" =
      some (jgetD [("ShipID", Value.int 2), ("SystemAddress", Value.int 3)] "ShipID") :=
  ⟨by decide,
   (c2_amended_enrichment [] [("ShipID", Value.int 2), ("SystemAddress", Value.int 3)]
      (by decide) (by decide)).1⟩

/-! Claim C3. -/

/-- Claim C3 is false as stated: `verify_api_key` never examines the HTTP
status code, so a non-2xx response whose parseable body says `valid: true`
yields true, where the claim requires false for every non-2xx status. -/
theorem c3_counterexample :
    (verify_api_key (VerifyResponse.json 500 [("valid", Value.bool true)])
        initialConnectionState).1 = true := rfl

/-- Claim C3 as amended: `verify_api_key` returns true exactly when the JSON
body's `valid` field normalizes to true — boolean true, or the string "true"
in any letter case — and returns false for boolean false, string "false" (or
any other string not lowering to "true"), a missing `valid` field, malformed
JSON, or a transport failure or timeout, never raising to the caller; but the
HTTP status code is ignored entirely, so the result is the same for 2xx and
non-2xx responses alike. -/
theorem c3_amended_verify (status : Nat) (body : JsonObj) (conn : ConnectionState) :
    ((verify_api_key VerifyResponse.exn conn).1 = false) ∧
    (jget body "valid" = some (Value.bool true) →
      (verify_api_key (VerifyResponse.json status body) conn).1 = true) ∧
    (∀ s : String, jget body "valid" = some (Value.str s) →
      (verify_api_key (VerifyResponse.json status body) conn).1 = (pyLower s == "true")) ∧
    (jget body "valid" = some (Value.bool false) →
      (verify_api_key (VerifyResponse.json status body) conn).1 = false) ∧
    (jget body "valid" = none →
      (verify_api_key (VerifyResponse.json status body) conn).1 = false) := by
  refine ⟨rfl, ?_, ?_, ?_, ?_⟩
  · intro h; simp [verify_api_key, h, normalizeValid, Value.isTruthy]
  · intro s h; simp [verify_api_key, h, normalizeValid, Value.isTruthy]
  · intro h; simp [verify_api_key, h, normalizeValid, Value.isTruthy]
  · intro h; simp [verify_api_key, h, normalizeValid, Value.isTruthy]

/-- Witness for `c3_amended_verify`: a 500 response with `valid: "TRUE"`
normalizes to true, and a transport failure yields false. -/
theorem c3_amended_verify_witness :
    jget [("valid", Value.str "TRUE")] "valid" = some (Value.str "TRUE") ∧
    (verify_api_key (VerifyResponse.json 500 [("valid", Value.str "TRUE")])
        initialConnectionState).1 = (pyLower "TRUE" == "true") ∧
    (pyLower "TRUE" == "true") = true ∧
    (verify_api_key VerifyResponse.exn initialConnectionState).1 = false :=
  ⟨rfl,
   (c3_amended_verify 500 [("valid", Value.str "TRUE")] initialConnectionState).2.2.1
     "TRUE" rfl,
   by decide,
   (c3_amended_verify 500 [("valid", Value.str "TRUE")] initialConnectionState).1⟩

/-! Claim C4. -/

/-- Claim C4 is false as stated: it asserts the 401 side effect for every
submission profile, but the fleet-carrier profile only logs a 401 and leaves
ConnectionState untouched — here the state still reads "connected" after a
fleet-carrier submission got a 401. -/
theorem c4_counterexample :
    (fc_handle_event ⟨true, none⟩ (some "key") [] []
        (TransportResult.status 401)).outcome = SubmitOutcome.Unauthorized ∧
    (fc_handle_event ⟨true, none⟩ (some "key") [] []
        (TransportResult.status 401)).conn.is_connected = true := by
  exact ⟨rfl, rfl⟩

/-- Claim C4 as amended: for the general submission profile only, an HTTP 401
yields Unauthorized and flips ConnectionState to "disconnected"; the state
then reads false after any subsequent sequence of submissions and
verifications that contains no successful verify; and every other transport
answer (non-401 status, exception) leaves ConnectionState unchanged.  The
fleet-carrier profile never touches ConnectionState (see
`c4_counterexample`). -/
theorem c4_amended_unauthorized (conn : ConnectionState) (key : String)
    (userPerm : Option String) (ops : List Op)
    (hc : conn.is_connected = true) (hk : key ≠ "")
    (hops : ∀ op ∈ ops, verifySucceeds op = false) :
    (submit_journal_event conn (some key) userPerm
        (TransportResult.status 401)).outcome = SubmitOutcome.Unauthorized ∧
    (submit_journal_event conn (some key) userPerm
        (TransportResult.status 401)).conn.is_connected = false ∧
    (runOps (submit_journal_event conn (some key) userPerm
        (TransportResult.status 401)).conn ops).is_connected = false ∧
    (∀ t, t ≠ TransportResult.status 401 →
      (submit_journal_event conn (some key) userPerm t).conn = conn) := by
  have hsub : submit_journal_event conn (some key) userPerm
      (TransportResult.status 401) =
      ⟨false, .Unauthorized, 1, { conn with is_connected := false },
       some (get_permissions_header userPerm)⟩ := by
    simp [submit_journal_event, hc, hk]
  refine ⟨by rw [hsub], by rw [hsub], ?_, ?_⟩
  · rw [hsub]
    exact runOps_stays_disconnected _ ops rfl hops
  · intro t ht
    cases t with
    | exn => simp [submit_journal_event, hc, hk]
    | status code =>
        have h401 : code ≠ 401 := fun hcode => ht (by rw [hcode])
        by_cases h200 : code = 200 <;>
          simp [submit_journal_event, hc, hk, h401, h200]

/-- Witness for `c4_amended_unauthorized` at a concrete connected state, with
a subsequent fleet-carrier submission and a failing verification. -/
theorem c4_amended_unauthorized_witness :
    (⟨true, none⟩ : ConnectionState).is_connected = true ∧
    ("key" : String) ≠ "" ∧
    (runOps (submit_journal_event ⟨true, none⟩ (some "key") none
        (TransportResult.status 401)).conn
      [Op.fcSubmit (some "key") [] [] (TransportResult.status 200),
       Op.verifyOp VerifyResponse.exn]).is_connected = false :=
  ⟨rfl, by decide,
   (c4_amended_unauthorized ⟨true, none⟩ "key" none
      [Op.fcSubmit (some "key") [] [] (TransportResult.status 200),
       Op.verifyOp VerifyResponse.exn] rfl (by decide) (by decide)).2.2.1⟩

/-! Claim C5. -/

/-- Claim C5: `journal_entry` never puts anything on the general dispatch
queue — `event_queue` is unchanged by every ingestion — and the only queue an
accepted event can reach is the fleet-carrier worker's queue, where it is
appended as the pair of the entry and its auxiliary state.  The fleet-carrier
profile is therefore the only submission profile reachable from ingestion. -/
theorem c5_ingestion_only_fc_queue (st : EDStSState) (entry state : JsonObj) :
    (journal_entry st entry state).event_queue = st.event_queue ∧
    ((journal_entry st entry state).fc_queue = st.fc_queue ∨
     (journal_entry st entry state).fc_queue =
       st.fc_queue ++ [some (entry, state)]) := by
  unfold journal_entry
  split
  · exact ⟨rfl, Or.inl rfl⟩
  · unfold fc_process_event
    split
    · exact ⟨rfl, Or.inr rfl⟩
    · exact ⟨rfl, Or.inl rfl⟩

/-! Claim C6. -/

/-- Claim C6: the event filters are total pure membership tests, and an event
whose name lies in neither accepted category set is rejected by both filters
and enqueued on no dispatch queue by ingestion.  (The `IMPORTANT_EVENTS` set
is modelled from the spec as an arbitrary closed set, see
`should_process_event`.) -/
theorem c6_filter_rejects (importantEvents : List String) (name ts : String)
    (st : EDStSState) (entry state : JsonObj)
    (h1 : importantEvents.contains name = false)
    (h2 : FC_EVENTS.contains name = false)
    (h3 : jget entry "event" = some (Value.str name)) :
    should_process_event importantEvents name ts = false ∧
    should_handle_event entry = false ∧
    (journal_entry st entry state).event_queue = st.event_queue ∧
    (journal_entry st entry state).fc_queue = st.fc_queue := by
  have h1m : name ∉ importantEvents := by simpa using h1
  have h2m : name ∉ FC_EVENTS := by simpa using h2
  have hsh : should_handle_event entry = false := by
    simp [should_handle_event, h3, h2m]
  refine ⟨by simp [should_process_event, h1m], hsh, ?_, ?_⟩
  · unfold journal_entry
    split
    · rfl
    · rfl
  · unfold journal_entry
    split
    · rfl
    · simp [fc_process_event, hsh]

/-- Witness for `c6_filter_rejects`: the event name "FSDJump" lies in neither
set, and ingesting it changes neither queue. -/
theorem c6_filter_rejects_witness :
    (["Docked"] : List String).contains "FSDJump" = false ∧
    FC_EVENTS.contains "FSDJump" = false ∧
    should_handle_event [("event", Value.str "FSDJump")] = false ∧
    (journal_entry initialEDStSState [("event", Value.str "FSDJump")] []).fc_queue =
      initialEDStSState.fc_queue :=
  ⟨by decide, by decide,
   (c6_filter_rejects ["Docked"] "FSDJump" "ts" initialEDStSState
      [("event", Value.str "FSDJump")] [] (by decide) (by decide) rfl).2.1,
   (c6_filter_rejects ["Docked"] "FSDJump" "ts" initialEDStSState
      [("event", Value.str "FSDJump")] [] (by decide) (by decide) rfl).2.2.2⟩

/-! Claim C7. -/

/-- Claim C7 is false as stated: it asserts that every verify call also
writes the observation timestamp, but `verify_api_key` never writes
`last_activity_check` — even after a successful verification the field still
holds its initial `None`. -/
theorem c7_counterexample :
    (verify_api_key (VerifyResponse.json 200 [("valid", Value.bool true)])
        initialConnectionState).1 = true ∧
    (verify_api_key (VerifyResponse.json 200 [("valid", Value.bool true)])
        initialConnectionState).2.last_activity_check = none := ⟨rfl, rfl⟩

/-- Claim C7 as amended: every call to `verify_api_key`, whatever the
outcome, writes the resulting boolean into ConnectionState's connected flag,
but the last-checked timestamp is never written — `last_activity_check` keeps
whatever value it had before the call. -/
theorem c7_amended_verify_writes (resp : VerifyResponse) (conn : ConnectionState) :
    (verify_api_key resp conn).2.is_connected = (verify_api_key resp conn).1 ∧
    (verify_api_key resp conn).2.last_activity_check = conn.last_activity_check := by
  cases resp <;> exact ⟨rfl, rfl⟩

/-! Claim C8. -/

/-- The permission-header format as the spec states it: the literal "EDStS"
when no permissions are configured (no stored value, or the empty string),
otherwise "EDStS," followed by the comma-joined, whitespace-trimmed configured
permission tags with empty tags dropped. -/
def permissionsHeaderSpec : Option String → String
  | none => "EDStS"
  | some s =>
      if s = "" then "EDStS"
      else
        "EDStS," ++
          String.intercalate ","
            (((s.splitOn ",").map String.trim).filter (fun p => p ≠ ""))

/-- Claim C8: for every configuration the header computed by
`get_permissions_header` (the general submission profile's header, sent on
every request it makes while connected) coincides with the spec's format, and
the fleet-carrier submission profile sends exactly the bare literal "EDStS"
on every request it makes, regardless of configured permissions. -/
theorem c8_permission_headers (userPerm : Option String) (conn : ConnectionState)
    (key : String) (entry state : JsonObj) (t : TransportResult)
    (hk : key ≠ "") :
    get_permissions_header userPerm = permissionsHeaderSpec userPerm ∧
    (conn.is_connected = true →
      (submit_journal_event conn (some key) userPerm t).sentPermHeader =
        some (get_permissions_header userPerm)) ∧
    (fc_handle_event conn (some key) entry state t).sentPermHeader =
      some "EDStS" := by
  refine ⟨by cases userPerm <;> rfl, ?_, ?_⟩
  · intro hc
    cases t with
    | exn => simp [submit_journal_event, hc, hk]
    | status code =>
        by_cases h4 : code = 401
        · simp [submit_journal_event, hc, hk, h4]
        · by_cases h2 : code = 200 <;>
            simp [submit_journal_event, hc, hk, h4, h2]
  · cases t with
    | exn => simp [fc_handle_event, hk]
    | status code =>
        by_cases h4 : code = 401
        · simp [fc_handle_event, hk, h4]
        · by_cases h2 : code = 200 <;> simp [fc_handle_event, hk, h4, h2]

/-- Witness for `c8_permission_headers` at a concrete configuration. -/
theorem c8_permission_headers_witness :
    ("key" : String) ≠ "" ∧
    get_permissions_header (some "market, fc") =
      permissionsHeaderSpec (some "market, fc") ∧
    (fc_handle_event ⟨true, none⟩ (some "key") [] []
        (TransportResult.status 200)).sentPermHeader = some "EDStS" :=
  ⟨by decide,
   (c8_permission_headers (some "market, fc") ⟨true, none⟩ "key" [] []
      (TransportResult.status 200) (by decide)).1,
   (c8_permission_headers (some "market, fc") ⟨true, none⟩ "key" [] []
      (TransportResult.status 200) (by decide)).2.2⟩

/-! Claim C9. -/

/-- Claim C9 is false as stated: `plugin_stop` never cancels the pending
verification timer.  Stopping a state whose timer is armed leaves the timer
armed, so a scheduled verification run can still fire after stop completes. -/
theorem c9_counterexample :
    (plugin_stop { initialEDStSState with verification_timer_armed := true
      }).verification_timer_armed = true := rfl

/-- Claim C9 as amended: `plugin_stop` leaves the verification timer exactly
as it was — it only raises both shutdown flags and pushes the stop sentinel
onto each queue; a pending timer is cancelled only by `schedule_verification`
itself, which immediately re-arms a fresh one (the implementation otherwise
relies on the timer thread's daemon flag at process exit). -/
theorem c9_amended_stop_timer (st : EDStSState) :
    (plugin_stop st).verification_timer_armed = st.verification_timer_armed ∧
    (plugin_stop st).shutting_down = true ∧
    (plugin_stop st).fc_shutting_down = true ∧
    (plugin_stop st).event_queue = st.event_queue ++ [none] ∧
    (plugin_stop st).fc_queue = st.fc_queue ++ [none] ∧
    (schedule_verification st).verification_timer_armed = true :=
  ⟨rfl, rfl, rfl, rfl, rfl, rfl⟩

/-! Claim C10. -/

/-- Claim C10 is false as stated: it asserts the 5-unit backoff after a
Failed outcome in every worker loop, but the fleet-carrier loop never sleeps.
Here a fleet-carrier submission fails with a 500 status, yet the loop's trace
records no sleep before the next fetch. -/
theorem c10_counterexample :
    (fc_handle_event ⟨true, none⟩ (some "key") [] []
        (TransportResult.status 500)).outcome = SubmitOutcome.Failed ∧
    fc_worker_run ⟨true, none⟩ (some "key")
        [some (([], []), TransportResult.status 500)] =
      [{ event := [], outcome := SubmitOutcome.Failed, sleepAfter := 0 }] := by
  exact ⟨rfl, rfl⟩

/-- Claim C10 as amended: in the general worker loop a Delivered outcome is
followed immediately by the next fetch and an Unauthorized or Failed outcome
by a fixed 5-unit sleep, while the fleet-carrier loop never sleeps at all,
whatever the outcome; in both loops each queue entry before the stop sentinel
is attempted exactly once, in order, and no event is ever requeued. -/
theorem c10_amended_backoff (conn : ConnectionState) (apiKey userPerm : Option String)
    (q : List (Option (JsonObj × TransportResult)))
    (fq : List (Option ((JsonObj × JsonObj) × TransportResult))) :
    ((worker_run conn apiKey userPerm q).map Attempt.event = processedEvents q) ∧
    (∀ a ∈ worker_run conn apiKey userPerm q,
      a.sleepAfter = if a.outcome = SubmitOutcome.Delivered then 0 else 5) ∧
    ((fc_worker_run conn apiKey fq).map Attempt.event = fcProcessedEvents fq) ∧
    (∀ a ∈ fc_worker_run conn apiKey fq, a.sleepAfter = 0) :=
  ⟨worker_run_events apiKey userPerm q conn,
   fun a ha => worker_run_sleeps apiKey userPerm q conn a ha,
   fc_worker_run_events apiKey fq conn,
   fun a ha => fc_worker_run_sleeps apiKey fq conn a ha⟩

/-- Witness for `c10_amended_backoff` on concrete queues: one failing general
attempt (backoff 5) and one failing fleet-carrier attempt (no backoff). -/
theorem c10_amended_backoff_witness :
    (worker_run ⟨true, none⟩ (some "key") none
        [some ([], TransportResult.status 500)]).map Attempt.event =
      processedEvents [some ([], TransportResult.status 500)] ∧
    (∀ a ∈ fc_worker_run ⟨true, none⟩ (some "key")
        [some (([], []), TransportResult.status 500)], a.sleepAfter = 0) :=
  ⟨(c10_amended_backoff ⟨true, none⟩ (some "key") none
      [some ([], TransportResult.status 500)]
      [some (([], []), TransportResult.status 500)]).1,
   (c10_amended_backoff ⟨true, none⟩ (some "key") none
      [some ([], TransportResult.status 500)]
      [some (([], []), TransportResult.status 500)]).2.2.2⟩
